import Mathlib

/-!
Shallow embedding of the business-data-validation toolkit
(`src/validate_transactions.py`) and proofs about its specification.

Modelling conventions:
* A data-frame row (after type coercion and `pd.to_datetime` parsing) is a
  `Row`; nullable columns are `Option`-valued, numeric columns are `ℚ`
  (Python floats are idealised as exact rationals), parsed timestamps are
  `Option Int` (`none` = `NaT`).
* Python `str` operations that the code needs (`strip`, `upper`,
  lexicographic `<`, the regex `^[A-Z0-9]+$`) are modelled character-wise
  on `String.data`, matching Python code-point semantics on the ASCII data
  involved.
* IEEE float division by zero (`x / 0.0 = ±inf`, `0.0 / 0.0 = NaN`) is
  modelled explicitly in `ratio_lt` / `ratio_gt`; a `NaN` comparison is
  `False` (the code applies `.fillna(False)` to the outlier mask).
* Python `round(x, 1)` (round-half-to-even at one decimal) is `rnd1`,
  built from the round-half-even integer rounding `rhe`.
* The pandera `schema.validate` call is an external collaborator; its
  outcome is an explicit `Except` value: `Except.ok coerced` when
  validation succeeds and returns the coerced table, `Except.error n`
  when it raises `SchemaErrors` carrying `n = len(e.failure_cases)`.
  `schema_step` embeds the `try/except` of `main` (lines 83-95) around it.
-/

/-- An `Issue` record, `validate_transactions.py` lines 13-19. -/
structure Issue where
  issue_type : String
  severity : String
  row_count : Nat
  owner : String
  recommended_fix : String
deriving DecidableEq

/-- One row of the transactions table after schema coercion and
`InvoiceDate` parsing (columns of `build_schema`, lines 22-37). -/
structure Row where
  InvoiceNo : String
  StockCode : String
  Description : Option String
  Quantity : ℚ
  InvoiceDate : Option Int
  UnitPrice : ℚ
  CustomerID : Option ℚ
  Country : String
deriving DecidableEq

/-- The dictionary returned by `compute_quality_score` (line 64). -/
structure ScoreResult where
  score : ℚ
  grade : String
  total_rows : Nat
  issue_count : Nat
deriving DecidableEq

/-- A sampled exception row: a copy of an offending `Row` tagged with the
`IssueType` and `Severity` columns added by `sample_rows` (lines 204-205). -/
structure SampleRow where
  row : Row
  IssueType : String
  Severity : String
deriving DecidableEq

/-- Python whitespace characters stripped by `str.strip()`. -/
def isSpaceChar (c : Char) : Bool :=
  c = ' ' || c = '\t' || c = '\n' || c = '\x0d' || c = '\x0b' || c = '\x0c'

/-- Python `str.strip()` on the character list of a string. -/
def stripData (l : List Char) : List Char :=
  ((l.dropWhile isSpaceChar).reverse.dropWhile isSpaceChar).reverse

/-- Python `str.strip()`. -/
def pyStrip (s : String) : String := ⟨stripData s.data⟩

/-- Python `str.upper()` (character-wise; the data involved is ASCII). -/
def pyUpper (s : String) : String := ⟨s.data.map Char.toUpper⟩

/-- Python string comparison `a < b`: lexicographic by code point. -/
def lexLt : List Char → List Char → Bool
  | [], [] => false
  | [], _ :: _ => true
  | _ :: _, [] => false
  | a :: as, b :: bs => if a < b then true else if b < a then false else lexLt as bs

/-- Python `<` on strings, as used by `sort_values` on the severity column. -/
def strLt (a b : String) : Bool := lexLt a.data b.data

/-- Embeds `add_issue` (lines 40-51): appends an `Issue` unless the count is zero. -/
def add_issue (issues : List Issue) (issue_type severity : String) (n : Nat)
    (fix : String) (owner : String) : List Issue :=
  if n ≤ 0 then issues
  else issues ++ [{ issue_type := issue_type, severity := severity,
                    row_count := n, owner := owner, recommended_fix := fix }]

/-- The severity weight lookup `weights.get(it.severity.upper(), 2)`
(line 56 and 59): HIGH ↦ 8, MEDIUM ↦ 4, LOW ↦ 2, default 2. -/
def weightOf (severity : String) : ℚ :=
  if pyUpper severity = "HIGH" then 8
  else if pyUpper severity = "MEDIUM" then 4
  else if pyUpper severity = "LOW" then 2
  else 2

/-- Round-half-to-even of a rational to an integer (Python `round`). -/
def rhe (q : ℚ) : ℤ :=
  if q - ⌊q⌋ < 1/2 then ⌊q⌋
  else if 1/2 < q - ⌊q⌋ then ⌊q⌋ + 1
  else if ⌊q⌋ % 2 = 0 then ⌊q⌋ else ⌊q⌋ + 1

/-- Python `round(x, 1)`: round half-to-even at one decimal place. -/
def rnd1 (x : ℚ) : ℚ := (rhe (10 * x) : ℚ) / 10

/-- The penalty accumulation loop of `compute_quality_score` (lines 57-60). -/
def penaltyOf (issues : List Issue) (total_rows : Nat) : ℚ :=
  issues.foldl
    (fun penalty it =>
      penalty + weightOf it.severity * ((it.row_count : ℚ) / ((max total_rows 1 : Nat) : ℚ)) * 100)
    0

/-- Embeds `compute_quality_score` (lines 54-64). -/
def compute_quality_score (issues : List Issue) (total_rows : Nat) : ScoreResult :=
  let score : ℚ := max 0 (rnd1 (100 - penaltyOf issues total_rows))
  { score := score
    grade :=
      if score ≥ 95 then "A"
      else if score ≥ 90 then "B"
      else if score ≥ 80 then "C"
      else if score ≥ 70 then "D"
      else "E"
    total_rows := total_rows
    issue_count := issues.length }

/-- Rule 2 mask (line 99): `df["InvoiceDate"].isna()` after parsing. -/
def invalid_invoice_date (r : Row) : Bool := r.InvoiceDate.isNone

/-- Rule 3 mask (line 109): `df["CustomerID"].isna()`. -/
def missing_customer_id (r : Row) : Bool := r.CustomerID.isNone

/-- Rule mask (line 118): `df["Description"].fillna("").str.strip() == ""`. -/
def empty_description (r : Row) : Bool := pyStrip (r.Description.getD "") = ""

/-- Rule mask (line 128): `df["Quantity"] <= 0`. -/
def non_positive_quantity (r : Row) : Bool := decide (r.Quantity ≤ 0)

/-- Rule mask (line 138): `df["UnitPrice"] <= 0`. -/
def non_positive_unit_price (r : Row) : Bool := decide (r.UnitPrice ≤ 0)

/-- Rule mask (line 148): `~df["StockCode"].str.match("^[A-Z0-9]+$")`:
the StockCode is not a non-empty string of uppercase ASCII letters/digits. -/
def invalid_stockcode_format (r : Row) : Bool :=
  !(!r.StockCode.data.isEmpty &&
    r.StockCode.data.all (fun c => ('A' ≤ c && c ≤ 'Z') || ('0' ≤ c && c ≤ '9')))

/-- The duplicate key `(InvoiceNo, StockCode, InvoiceDate)` of line 159. -/
def rowKey (r : Row) : String × String × Option Int :=
  (r.InvoiceNo, r.StockCode, r.InvoiceDate)

/-- Rule mask (line 159): `df.duplicated(subset=[...], keep=False)` marks a
row iff at least one other row shares its key. -/
def duplicate_line (df : List Row) (r : Row) : Bool :=
  decide (2 ≤ df.countP (fun r2 => decide (rowKey r2 = rowKey r)))

/-- The product-master price dictionary
`pm.set_index("StockCode")["UnitPrice_Ref"].to_dict()` (line 182): for
duplicate StockCodes the last row wins, hence the lookup on the reversed
list. -/
def pm_lookup (pm : List (String × ℚ)) (code : String) : Option ℚ :=
  List.lookup code pm.reverse

/-- Rule mask (line 171): `~df["StockCode"].isin(pm_codes)` where
`pm_codes = set(pm["StockCode"])` (line 170). -/
def not_in_master (pm : List (String × ℚ)) (r : Row) : Bool :=
  decide (r.StockCode ∉ pm.map Prod.fst)

/-- Float semantics of `(p / ref) < c` for the price-ratio column: when
`ref = 0`, IEEE division gives `-inf` (if `p < 0`, which is `< c`),
`+inf` (if `p > 0`) or `NaN` (if `p = 0`), the latter two not `< c`. -/
def ratio_lt (p ref c : ℚ) : Bool :=
  if ref = 0 then decide (p < 0) else decide (p / ref < c)

/-- Float semantics of `(p / ref) > c`; see `ratio_lt`. -/
def ratio_gt (p ref c : ℚ) : Bool :=
  if ref = 0 then decide (0 < p) else decide (c < p / ref)

/-- Outlier mask (lines 183-186):
`((price_ratio < 0.3) | (price_ratio > 3.0)).fillna(False)` where
`price_ratio = df["UnitPrice"] / df["StockCode"].map(pm_ref)`; a missing
reference price gives a `NaN` ratio, filled to `False`. -/
def price_outlier (pm : List (String × ℚ)) (r : Row) : Bool :=
  match pm_lookup pm r.StockCode with
  | none => false
  | some ref => ratio_lt r.UnitPrice ref (mkRat 3 10) || ratio_gt r.UnitPrice ref 3

/-- Steps 2-7 of `main` (lines 97-194): every rule counts its mask over the
table and contributes an issue through `add_issue`, in source order. -/
def collect_issues (df : List Row) (pm : List (String × ℚ))
    (issues0 : List Issue) : List Issue :=
  let i1 := add_issue issues0 "INVALID_INVOICE_DATE" "MEDIUM"
    (df.countP invalid_invoice_date)
    "Ensure InvoiceDate exports are consistent; fix locale/time format; re-export if needed."
    "Data Owner"
  let i2 := add_issue i1 "MISSING_CUSTOMER_ID" "LOW"
    (df.countP missing_customer_id)
    "If CustomerID is required for the report, make it mandatory upstream; otherwise exclude from customer-level KPIs."
    "Data Owner"
  let i3 := add_issue i2 "EMPTY_DESCRIPTION" "LOW"
    (df.countP empty_description)
    "Fill from product master or enforce description capture upstream."
    "Data Owner"
  let i4 := add_issue i3 "NON_POSITIVE_QUANTITY" "MEDIUM"
    (df.countP non_positive_quantity)
    "Separate returns vs sales; enforce Quantity>0 for sales extracts; tag returns with a flag."
    "Process Owner"
  let i5 := add_issue i4 "NON_POSITIVE_UNIT_PRICE" "HIGH"
    (df.countP non_positive_unit_price)
    "Fix price master / ensure UnitPrice is extracted correctly; block reporting until corrected."
    "Master Data Owner"
  let i6 := add_issue i5 "INVALID_STOCKCODE_FORMAT" "MEDIUM"
    (df.countP invalid_stockcode_format)
    "Standardize StockCode format; strip spaces; validate during data entry/export."
    "Master Data Owner"
  let i7 := add_issue i6 "DUPLICATE_LINES" "MEDIUM"
    (df.countP (duplicate_line df))
    "Define a unique key; deduplicate by latest timestamp; investigate double-exports."
    "Reporting Owner"
  let i8 := add_issue i7 "STOCKCODE_NOT_IN_PRODUCT_MASTER" "HIGH"
    (df.countP (not_in_master pm))
    "Update product master mapping table or correct StockCodes in the source export."
    "Master Data Owner"
  add_issue i8 "UNITPRICE_OUTLIER_VS_REFERENCE" "LOW"
    (df.countP (price_outlier pm))
    "Review outliers; check currency/decimal issues; fix master price or export transformation."
    "Finance/Reporting"

/-- The `try/except` around `schema.validate` (lines 83-95).  On success the
name `df` is rebound to the returned (coerced) table; when `SchemaErrors`
is raised the assignment never happens, `df` keeps its previous value and a
single HIGH issue carrying `len(e.failure_cases)` is recorded. -/
def schema_step (df : List Row) (vres : Except Nat (List Row)) :
    List Row × List Issue :=
  match vres with
  | Except.ok coerced => (coerced, [])
  | Except.error nFailures =>
    (df,
     add_issue [] "SCHEMA_VALIDATION_FAILED" "HIGH" nFailures
       "Align column names/types; enforce consistent export format (e.g., SAP -> CSV template)."
       "Reporting Owner")

/-- The issue list produced by `main` (lines 79-194): the schema step
followed by all rule counts. -/
def pipeline_issues (df : List Row) (vres : Except Nat (List Row))
    (pm : List (String × ℚ)) : List Issue :=
  let s := schema_step df vres
  collect_issues s.1 pm s.2

/-- Embeds `sample_rows` (lines 199-206): filter the table by the rule mask,
return nothing when empty, else tag the first (at most) 50 matching rows. -/
def sample_rows (df : List Row) (mask : Row → Bool)
    (issue_type severity : String) : List SampleRow :=
  let subset := df.filter mask
  if subset.length = 0 then []
  else (subset.take 50).map
    (fun r => { row := r, IssueType := issue_type, Severity := severity })

/-- The combined exception-sample table (lines 197-221): the nine
`sample_rows` calls of lines 208-216 concatenated in source order. -/
def all_samples (df : List Row) (pm : List (String × ℚ)) : List SampleRow :=
  sample_rows df invalid_invoice_date "INVALID_INVOICE_DATE" "MEDIUM" ++
  sample_rows df missing_customer_id "MISSING_CUSTOMER_ID" "LOW" ++
  sample_rows df empty_description "EMPTY_DESCRIPTION" "LOW" ++
  sample_rows df non_positive_quantity "NON_POSITIVE_QUANTITY" "MEDIUM" ++
  sample_rows df non_positive_unit_price "NON_POSITIVE_UNIT_PRICE" "HIGH" ++
  sample_rows df invalid_stockcode_format "INVALID_STOCKCODE_FORMAT" "MEDIUM" ++
  sample_rows df (duplicate_line df) "DUPLICATE_LINES" "MEDIUM" ++
  sample_rows df (not_in_master pm) "STOCKCODE_NOT_IN_PRODUCT_MASTER" "HIGH" ++
  sample_rows df (price_outlier pm) "UNITPRICE_OUTLIER_VS_REFERENCE" "LOW"

/-- The sort key of `issue_df.sort_values(["severity", "row_count"],
ascending=[True, False])` (line 224): severity ascending as a Python
string comparison (lexicographic by code point), then row_count
descending. -/
def issueLE (a b : Issue) : Prop :=
  strLt a.severity b.severity = true ∨
    (a.severity = b.severity ∧ b.row_count ≤ a.row_count)

instance : DecidableRel issueLE := fun a b => by
  unfold issueLE; infer_instance

/-- The presentation order of the exception log (line 224): the issue list
sorted stably by `issueLE` (pandas multi-key `sort_values` is a stable
lexsort). -/
def sortIssues (issues : List Issue) : List Issue :=
  List.insertionSort issueLE issues

/-- Spec-side weight function, following the words of §4.4:
weight(HIGH)=8, weight(MEDIUM)=4, weight(LOW)=2, default 2 for any
unrecognized severity. -/
def specWeight (severity : String) : ℚ :=
  if severity = "HIGH" then 8
  else if severity = "MEDIUM" then 4
  else if severity = "LOW" then 2
  else 2

/-- Spec-side penalty, following the words of §4.4: the sum over issues of
weight(severity) × (row_count / max(total_rows, 1)) × 100. -/
def specPenalty (issues : List Issue) (total_rows : Nat) : ℚ :=
  (issues.map
    (fun it => specWeight it.severity * ((it.row_count : ℚ) / ((max total_rows 1 : Nat) : ℚ)) * 100)).sum

/-- Spec-side severity rank for the claimed presentation order:
HIGH first, then MEDIUM, then LOW. -/
def specSevRank (severity : String) : Nat :=
  if severity = "HIGH" then 0
  else if severity = "MEDIUM" then 1
  else if severity = "LOW" then 2
  else 3

/-- Spec-side order check for the claimed exception-log ordering: adjacent
issues are ordered by severity rank HIGH, MEDIUM, LOW and, within equal
severity, by descending row_count. -/
def specOrdered : List Issue → Bool
  | [] => true
  | [_] => true
  | a :: b :: rest =>
    (specSevRank a.severity < specSevRank b.severity ||
      (specSevRank a.severity == specSevRank b.severity && b.row_count ≤ a.row_count)) &&
    specOrdered (b :: rest)

/-- Multiplicity of a duplicate key in the table: how many rows carry it. -/
def keyMult (df : List Row) (k : String × String × Option Int) : Nat :=
  (df.map rowKey).countP (fun x => decide (x = k))

/-- Spec-side duplicate total, following the words of §8: the total size of
all groups of size ≥ 2 sharing the `(InvoiceNo, StockCode, InvoiceDate)`
key, i.e. the sum of the multiplicities of all keys of multiplicity ≥ 2. -/
def specDupTotal (df : List Row) : Nat :=
  Finset.sum
    ((df.map rowKey).toFinset.filter (fun k => 2 ≤ keyMult df k))
    (fun k => keyMult df k)

/-- A fully valid transaction row, used as a concrete witness input. -/
def rowOk : Row :=
  { InvoiceNo := "536365", StockCode := "A1", Description := some "WHITE MUG",
    Quantity := 6, InvoiceDate := some 100, UnitPrice := 1,
    CustomerID := some 17850, Country := "United Kingdom" }

/-- A row with an unparseable date and a missing CustomerID, used as a
concrete counterexample input. -/
def rowBad : Row :=
  { InvoiceNo := "536366", StockCode := "B2", Description := some "RED MUG",
    Quantity := 2, InvoiceDate := none, UnitPrice := 3,
    CustomerID := none, Country := "France" }

/-- A row whose StockCode has reference price 0 in `pmZero`. -/
def rowZ : Row :=
  { InvoiceNo := "536367", StockCode := "Z999", Description := some "LAMP",
    Quantity := 1, InvoiceDate := some 200, UnitPrice := 999,
    CustomerID := some 12583, Country := "France" }

/-- A product master matching `rowOk` with reference price 1. -/
def pmOk : List (String × ℚ) := [("A1", 1)]

/-- A product master carrying reference price 0 for StockCode Z999. -/
def pmZero : List (String × ℚ) := [("Z999", 0)]

/-- The single Issue of the §8 scoring scenario: 100 rows, 10 of them with
UnitPrice ≤ 0. -/
def scenIssue : Issue :=
  { issue_type := "NON_POSITIVE_UNIT_PRICE", severity := "HIGH", row_count := 10,
    owner := "Master Data Owner",
    recommended_fix := "Fix price master / ensure UnitPrice is extracted correctly; block reporting until corrected." }

/-- Any member of `add_issue issues ...` is either an old member or has a
positive row count (the `if n <= 0: return` guard of line 41). -/
theorem mem_add_issue {issues : List Issue} {t s : String} {n : Nat}
    {f o : String} {i : Issue} (h : i ∈ add_issue issues t s n f o) :
    i ∈ issues ∨ 1 ≤ i.row_count := by
  unfold add_issue at h
  split at h
  · exact Or.inl h
  · next hc =>
    rcases List.mem_append.mp h with h | h
    · exact Or.inl h
    · rcases List.mem_singleton.mp h with rfl
      right
      simpa using Nat.lt_of_not_le hc

/-- C10: a transaction row whose StockCode is in the product master with
reference price exactly 0 and whose UnitPrice is positive is counted by the
UNITPRICE_OUTLIER_VS_REFERENCE mask: the division is not guarded against a
zero divisor, the float ratio is `+inf`, and `+inf > 3.0` holds.  Only a
missing reference price escapes the outlier rule, not a zero one. -/
theorem c10_zero_reference_price (pm : List (String × ℚ)) (r : Row)
    (h0 : pm_lookup pm r.StockCode = some 0) (hp : 0 < r.UnitPrice) :
    price_outlier pm r = true := by
  unfold price_outlier
  rw [h0]
  simp [ratio_lt, ratio_gt, hp]

/-- C10 witness: StockCode Z999 with reference price 0 and UnitPrice 999 is
counted as a price outlier. -/
theorem c10_zero_reference_price_witness : price_outlier pmZero rowZ = true :=
  c10_zero_reference_price pmZero rowZ (by decide) (by decide)

/-- C4 divergence witness: when `schema.validate` raises `SchemaErrors`
with `n ≥ 1` failure cases, the table handed to every subsequent rule is
the ORIGINAL, uncoerced `df` (the assignment `df = schema.validate(df)`
never happened), and exactly one HIGH SCHEMA_VALIDATION_FAILED issue
carrying `n` is recorded.  The spec instead requires the subsequent rules
to run on the coerced table with unconvertible values nulled. -/
theorem c4_schema_error_keeps_table (df : List Row) (n : Nat) (hn : 1 ≤ n) :
    (schema_step df (Except.error n)).1 = df ∧
    (schema_step df (Except.error n)).2 =
      [{ issue_type := "SCHEMA_VALIDATION_FAILED", severity := "HIGH",
         row_count := n, owner := "Reporting Owner",
         recommended_fix := "Align column names/types; enforce consistent export format (e.g., SAP -> CSV template)." }] := by
  refine ⟨rfl, ?_⟩
  have hc : ¬ (n ≤ 0) := by omega
  simp [schema_step, add_issue, hc]

/-- C4 witness: the schema-failure branch at a concrete input. -/
theorem c4_schema_error_keeps_table_witness :
    (schema_step [rowOk] (Except.error 1)).1 = [rowOk] ∧
    (schema_step [rowOk] (Except.error 1)).2 =
      [{ issue_type := "SCHEMA_VALIDATION_FAILED", severity := "HIGH",
         row_count := 1, owner := "Reporting Owner",
         recommended_fix := "Align column names/types; enforce consistent export format (e.g., SAP -> CSV template)." }] :=
  c4_schema_error_keeps_table [rowOk] 1 (by decide)

/-- C7: for a rule mask matching at least one row, the sampler emits
exactly `min(violation_count, 50)` rows, namely the first (at most) 50
matching rows in table order, each tagged with the rule IssueType and
Severity, and never more than 50. -/
theorem c7_sampler (df : List Row) (mask : Row → Bool) (t s : String)
    (h : 0 < df.countP mask) :
    (sample_rows df mask t s).length = min (df.countP mask) 50 ∧
    sample_rows df mask t s =
      ((df.filter mask).take 50).map
        (fun r => { row := r, IssueType := t, Severity := s }) ∧
    (sample_rows df mask t s).length ≤ 50 := by
  have hf : (df.filter mask).length = df.countP mask :=
    (List.countP_eq_length_filter mask df).symm
  have hne : ¬ ((df.filter mask).length = 0) := by omega
  have hsr : sample_rows df mask t s =
      ((df.filter mask).take 50).map
        (fun r => { row := r, IssueType := t, Severity := s }) := by
    unfold sample_rows
    simp [hne]
  have hlen : (sample_rows df mask t s).length = min (df.countP mask) 50 := by
    rw [hsr, List.length_map, List.length_take, hf, Nat.min_comm]
  exact ⟨hlen, hsr, by rw [hlen]; exact Nat.min_le_right _ _⟩

/-- C7 witness: the NON_POSITIVE_QUANTITY mask matches one row of a
two-row table. -/
theorem c7_sampler_witness :
    (sample_rows [rowOk, { rowOk with Quantity := 0 }] non_positive_quantity
        "NON_POSITIVE_QUANTITY" "MEDIUM").length =
      min (List.countP non_positive_quantity [rowOk, { rowOk with Quantity := 0 }]) 50 ∧
    sample_rows [rowOk, { rowOk with Quantity := 0 }] non_positive_quantity
        "NON_POSITIVE_QUANTITY" "MEDIUM" =
      ((List.filter non_positive_quantity [rowOk, { rowOk with Quantity := 0 }]).take 50).map
        (fun r => { row := r, IssueType := "NON_POSITIVE_QUANTITY", Severity := "MEDIUM" }) ∧
    (sample_rows [rowOk, { rowOk with Quantity := 0 }] non_positive_quantity
        "NON_POSITIVE_QUANTITY" "MEDIUM").length ≤ 50 :=
  c7_sampler [rowOk, { rowOk with Quantity := 0 }] non_positive_quantity
    "NON_POSITIVE_QUANTITY" "MEDIUM" (by decide)

/-- C8: every issue ever emitted by the pipeline has row_count ≥ 1; a rule
matching zero rows contributes no issue at all. -/
theorem c8_issue_counts_positive (df : List Row) (vres : Except Nat (List Row))
    (pm : List (String × ℚ)) (i : Issue)
    (hi : i ∈ pipeline_issues df vres pm) : 1 ≤ i.row_count := by
  have step : ∀ {is : List Issue} {t s : String} {n : Nat} {f o : String},
      (i ∈ is → 1 ≤ i.row_count) →
      (i ∈ add_issue is t s n f o → 1 ≤ i.row_count) :=
    fun ih h => (mem_add_issue h).elim ih id
  have base : i ∈ (schema_step df vres).2 → 1 ≤ i.row_count := by
    cases vres with
    | ok coerced => intro h; simp [schema_step] at h
    | error n =>
      intro h
      simp only [schema_step] at h
      exact (mem_add_issue h).elim (by simp) id
  simp only [pipeline_issues, collect_issues] at hi
  exact step (step (step (step (step (step (step (step (step base)))))))) hi

/-- C8 witness: a concrete emitted issue of a concrete run has
row_count ≥ 1. -/
theorem c8_issue_counts_positive_witness :
    1 ≤ (Issue.mk "INVALID_INVOICE_DATE" "MEDIUM" 1 "Data Owner"
      "Ensure InvoiceDate exports are consistent; fix locale/time format; re-export if needed.").row_count :=
  c8_issue_counts_positive [rowBad] (Except.ok [rowBad]) [] _ (by decide)

/-- Lower bound of the rounding: `⌊q⌋ ≤ rhe q`. -/
theorem le_rhe (q : ℚ) : ⌊q⌋ ≤ rhe q := by
  unfold rhe; split_ifs <;> omega

/-- Upper bound of the rounding: `rhe q ≤ ⌊q⌋ + 1`. -/
theorem rhe_le (q : ℚ) : rhe q ≤ ⌊q⌋ + 1 := by
  unfold rhe; split_ifs <;> omega

/-- Rounding an integer is the identity. -/
theorem rhe_int (n : ℤ) : rhe (n : ℚ) = n := by
  unfold rhe
  rw [Int.floor_intCast]
  have h0 : (n : ℚ) - (n : ℤ) = 0 := by ring
  rw [h0]
  norm_num

/-- Round-half-to-even is monotone. -/
theorem rhe_mono {x y : ℚ} (h : x ≤ y) : rhe x ≤ rhe y := by
  have hf : ⌊x⌋ ≤ ⌊y⌋ := Int.floor_le_floor h
  rcases eq_or_lt_of_le hf with heq | hlt
  · have key : x - (⌊y⌋ : ℚ) ≤ y - (⌊y⌋ : ℚ) := sub_le_sub_right h _
    unfold rhe
    rw [heq]
    split_ifs <;> first | omega | linarith
  · calc rhe x ≤ ⌊x⌋ + 1 := rhe_le x
    _ ≤ ⌊y⌋ := by omega
    _ ≤ rhe y := le_rhe y

/-- Python `round(·, 1)` is monotone. -/
theorem rnd1_mono {x y : ℚ} (h : x ≤ y) : rnd1 x ≤ rnd1 y := by
  unfold rnd1
  have hm : rhe (10 * x) ≤ rhe (10 * y) := rhe_mono (by linarith)
  exact (div_le_div_iff_of_pos_right (by norm_num)).mpr (Int.cast_le.mpr hm)

/-- The penalty loop is the sum of the per-issue contributions. -/
theorem penaltyOf_eq_sum (issues : List Issue) (total_rows : Nat) :
    penaltyOf issues total_rows =
      (issues.map
        (fun it => weightOf it.severity * ((it.row_count : ℚ) / ((max total_rows 1 : Nat) : ℚ)) * 100)).sum := by
  rw [List.sum_eq_foldl, List.foldl_map]
  rfl

/-- The score field of the scorer result, unfolded. -/
theorem score_def (issues : List Issue) (total_rows : Nat) :
    (compute_quality_score issues total_rows).score =
      max 0 (rnd1 (100 - penaltyOf issues total_rows)) := rfl

/-- Every severity weight is positive. -/
theorem weightOf_pos (s : String) : 0 < weightOf s := by
  unfold weightOf; split_ifs <;> norm_num

/-- C1: the scorer returns `max(0, round(100 - penalty, 1))` with the
spec penalty formula (weights 8/4/2, default 2), for any issue list whose
severities lie in the declared enum; and on the §8 scenario (one HIGH
issue of 10 rows out of 100) the penalty is 80 and the score 20.0. -/
theorem c1_score_formula (issues : List Issue) (total_rows : Nat)
    (h : ∀ i ∈ issues,
      i.severity = "HIGH" ∨ i.severity = "MEDIUM" ∨ i.severity = "LOW") :
    (compute_quality_score issues total_rows).score =
      max 0 (rnd1 (100 - specPenalty issues total_rows)) ∧
    specPenalty [scenIssue] 100 = 80 ∧
    (compute_quality_score [scenIssue] 100).score = 20 := by
  have wH : weightOf "HIGH" = specWeight "HIGH" := by decide
  have wM : weightOf "MEDIUM" = specWeight "MEDIUM" := by decide
  have wL : weightOf "LOW" = specWeight "LOW" := by decide
  have hscen : specPenalty [scenIssue] 100 = 80 := by
    simp [specPenalty, specWeight, scenIssue]
    norm_num
  refine ⟨?_, hscen, ?_⟩
  · rw [score_def]
    have hpen : penaltyOf issues total_rows = specPenalty issues total_rows := by
      rw [penaltyOf_eq_sum]
      unfold specPenalty
      congr 1
      apply List.map_congr_left
      intro i hi
      rcases h i hi with hs | hs | hs <;> rw [hs] <;> simp [wH, wM, wL]
    rw [hpen]
  · rw [score_def]
    have hmax : (max 100 1 : Nat) = 100 := by decide
    have wH8 : weightOf "HIGH" = 8 := by decide
    have hpen80 : penaltyOf [scenIssue] 100 = 80 := by
      rw [penaltyOf_eq_sum]
      simp only [List.map_cons, List.map_nil, List.sum_cons, List.sum_nil,
        scenIssue, hmax, wH8]
      norm_num
    rw [hpen80]
    have h2080 : (100 : ℚ) - 80 = 20 := by norm_num
    rw [h2080]
    have h20 : rnd1 20 = 20 := by
      unfold rnd1
      have hc : (10 : ℚ) * 20 = ((200 : ℤ) : ℚ) := by norm_num
      rw [hc, rhe_int]
      norm_num
    rw [h20]
    norm_num

/-- C1 witness: the formula applied to the scenario issue list. -/
theorem c1_score_formula_witness :
    (compute_quality_score [scenIssue] 100).score =
      max 0 (rnd1 (100 - specPenalty [scenIssue] 100)) ∧
    specPenalty [scenIssue] 100 = 80 ∧
    (compute_quality_score [scenIssue] 100).score = 20 :=
  c1_score_formula [scenIssue] 100 (by decide)

/-- C9: the quality score is monotonically non-increasing in any single
issue row_count, all else fixed. -/
theorem c9_score_monotone (pre post : List Issue) (t s o f : String)
    (n m total : Nat) (hnm : n ≤ m) :
    (compute_quality_score
      (pre ++ { issue_type := t, severity := s, row_count := m, owner := o,
                recommended_fix := f } :: post) total).score ≤
    (compute_quality_score
      (pre ++ { issue_type := t, severity := s, row_count := n, owner := o,
                recommended_fix := f } :: post) total).score := by
  rw [score_def, score_def]
  have hD : (0 : ℚ) < ((max total 1 : Nat) : ℚ) := by
    have h1 : 0 < max total 1 := Nat.lt_of_lt_of_le Nat.zero_lt_one (le_max_right _ _)
    exact_mod_cast h1
  have hpen : penaltyOf
      (pre ++ { issue_type := t, severity := s, row_count := n, owner := o,
                recommended_fix := f } :: post) total ≤
      penaltyOf
      (pre ++ { issue_type := t, severity := s, row_count := m, owner := o,
                recommended_fix := f } :: post) total := by
    rw [penaltyOf_eq_sum, penaltyOf_eq_sum, List.map_append, List.map_cons,
      List.sum_append, List.sum_cons, List.map_append, List.map_cons,
      List.sum_append, List.sum_cons]
    have hdiv : ((n : ℚ)) / ((max total 1 : Nat) : ℚ) ≤ ((m : ℚ)) / ((max total 1 : Nat) : ℚ) :=
      (div_le_div_iff_of_pos_right hD).mpr (by exact_mod_cast hnm)
    have hterm := mul_le_mul_of_nonneg_right
      (mul_le_mul_of_nonneg_left hdiv (weightOf_pos s).le)
      (by norm_num : (0 : ℚ) ≤ 100)
    exact add_le_add_left (add_le_add_right hterm _) _
  exact max_le_max le_rfl (rnd1_mono (by linarith))

/-- C9 witness: raising a row_count from 1 to 2 does not raise the score. -/
theorem c9_score_monotone_witness :
    (compute_quality_score
      [{ issue_type := "NON_POSITIVE_UNIT_PRICE", severity := "HIGH",
         row_count := 2, owner := "Master Data Owner",
         recommended_fix := "Fix" }] 10).score ≤
    (compute_quality_score
      [{ issue_type := "NON_POSITIVE_UNIT_PRICE", severity := "HIGH",
         row_count := 1, owner := "Master Data Owner",
         recommended_fix := "Fix" }] 10).score := by
  have h := c9_score_monotone [] [] "NON_POSITIVE_UNIT_PRICE" "HIGH"
    "Master Data Owner" "Fix" 1 2 10 (by decide)
  simpa using h

/-- Lexicographic comparison is irreflexive. -/
theorem lexLt_irrefl : ∀ l : List Char, lexLt l l = false := by
  intro l
  induction l with
  | nil => rfl
  | cons a as ih => simp [lexLt, ih, lt_irrefl]

/-- Lexicographic comparison is transitive. -/
theorem lexLt_trans {x : List Char} : ∀ {y z : List Char},
    lexLt x y = true → lexLt y z = true → lexLt x z = true := by
  induction x with
  | nil =>
    intro y z h1 h2
    cases y with
    | nil => simp [lexLt] at h1
    | cons b bs =>
      cases z with
      | nil => simp [lexLt] at h2
      | cons c cs => simp [lexLt]
  | cons a as ih =>
    intro y z h1 h2
    cases y with
    | nil => simp [lexLt] at h1
    | cons b bs =>
      cases z with
      | nil => simp [lexLt] at h2
      | cons c cs =>
        simp only [lexLt] at h1 h2 ⊢
        by_cases hab : a < b
        · by_cases hbc : b < c
          · simp [lt_trans hab hbc]
          · by_cases hcb : c < b
            · simp [hbc, hcb] at h2
            · have hbceq : b = c := le_antisymm (not_lt.mp hcb) (not_lt.mp hbc)
              subst hbceq
              simp [hab]
        · by_cases hba : b < a
          · simp [hab, hba] at h1
          · have habeq : a = b := le_antisymm (not_lt.mp hba) (not_lt.mp hab)
            subst habeq
            simp only [if_neg hab, if_neg hba] at h1
            by_cases hac : a < c
            · simp [hac]
            · by_cases hca : c < a
              · simp [hac, hca] at h2
              · simp only [if_neg hac, if_neg hca] at h2 ⊢
                exact ih h1 h2

/-- Two lists neither of which is lexicographically below the other are
equal. -/
theorem lexLt_eq_of_not {x : List Char} : ∀ {y : List Char},
    lexLt x y = false → lexLt y x = false → x = y := by
  induction x with
  | nil =>
    intro y h1 _
    cases y with
    | nil => rfl
    | cons b bs => simp [lexLt] at h1
  | cons a as ih =>
    intro y h1 h2
    cases y with
    | nil => simp [lexLt] at h2
    | cons b bs =>
      simp only [lexLt] at h1 h2
      by_cases hab : a < b
      · simp [hab] at h1
      · by_cases hba : b < a
        · simp [hab, hba] at h2
        · have habeq : a = b := le_antisymm (not_lt.mp hba) (not_lt.mp hab)
          subst habeq
          simp only [if_neg hab] at h1 h2
          rw [ih h1 h2]

instance : IsTrans Issue issueLE where
  trans a b c h1 h2 := by
    rcases h1 with h1 | ⟨e1, r1⟩
    · rcases h2 with h2 | ⟨e2, r2⟩
      · exact Or.inl (lexLt_trans h1 h2)
      · exact Or.inl (by rw [← e2]; exact h1)
    · rcases h2 with h2 | ⟨e2, r2⟩
      · exact Or.inl (by rw [e1]; exact h2)
      · exact Or.inr ⟨e1.trans e2, le_trans r2 r1⟩

instance : IsTotal Issue issueLE where
  total a b := by
    by_cases e : a.severity = b.severity
    · rcases Nat.le_total b.row_count a.row_count with h | h
      · exact Or.inl (Or.inr ⟨e, h⟩)
      · exact Or.inr (Or.inr ⟨e.symm, h⟩)
    · cases h1 : lexLt a.severity.data b.severity.data with
      | true => exact Or.inl (Or.inl h1)
      | false =>
        cases h2 : lexLt b.severity.data a.severity.data with
        | true => exact Or.inr (Or.inl h2)
        | false => exact absurd (String.ext (lexLt_eq_of_not h1 h2)) e

/-- C2 counterexample: a one-row table with an unparseable date and a
missing CustomerID against an empty product master yields one MEDIUM, one
LOW and one HIGH issue; the code sorts the severity STRINGS ascending, so
the log order is HIGH, LOW, MEDIUM — not the claimed HIGH, MEDIUM, LOW
enum order (the LOW issue precedes the MEDIUM one). -/
theorem c2_counterexample :
    sortIssues (pipeline_issues [rowBad] (Except.ok [rowBad]) []) =
      [{ issue_type := "STOCKCODE_NOT_IN_PRODUCT_MASTER", severity := "HIGH",
         row_count := 1, owner := "Master Data Owner",
         recommended_fix := "Update product master mapping table or correct StockCodes in the source export." },
       { issue_type := "MISSING_CUSTOMER_ID", severity := "LOW",
         row_count := 1, owner := "Data Owner",
         recommended_fix := "If CustomerID is required for the report, make it mandatory upstream; otherwise exclude from customer-level KPIs." },
       { issue_type := "INVALID_INVOICE_DATE", severity := "MEDIUM",
         row_count := 1, owner := "Data Owner",
         recommended_fix := "Ensure InvoiceDate exports are consistent; fix locale/time format; re-export if needed." }] ∧
    specOrdered (sortIssues (pipeline_issues [rowBad] (Except.ok [rowBad]) [])) = false := by
  constructor <;> decide

/-- C2 amended: the exception-log presentation order is by severity
ascending as Python strings (lexicographic: HIGH, then LOW, then MEDIUM)
and by descending row_count within equal severity; the sorted list is a
permutation of the collected issues. -/
theorem c2_amended (issues : List Issue) :
    List.Sorted issueLE (sortIssues issues) ∧ (sortIssues issues).Perm issues :=
  ⟨List.sorted_insertionSort issueLE issues, List.perm_insertionSort issueLE issues⟩

/-- The price dictionary has no entry for a code exactly when the code is
missing from the product-master StockCode column. -/
theorem lookup_none_iff (pm : List (String × ℚ)) (code : String) :
    pm_lookup pm code = none ↔ code ∉ pm.map Prod.fst := by
  unfold pm_lookup
  have H : ∀ l : List (String × ℚ),
      List.lookup code l = none ↔ code ∉ l.map Prod.fst := by
    intro l
    induction l with
    | nil => simp
    | cons p ps ih =>
      cases p with
      | mk a b =>
        by_cases h : code = a
        · subst h
          simp [List.lookup]
        · have hb : (code == a) = false := by simpa using h
          simp [List.lookup, hb, h, ih]
  rw [H]
  simp

/-- The outlier mask is false when the reference price is missing. -/
theorem price_outlier_none {pm : List (String × ℚ)} {r : Row}
    (hlk : pm_lookup pm r.StockCode = none) : price_outlier pm r = false := by
  unfold price_outlier
  rw [hlk]

/-- The outlier mask when the reference price exists. -/
theorem price_outlier_some {pm : List (String × ℚ)} {r : Row} {ref : ℚ}
    (hlk : pm_lookup pm r.StockCode = some ref) :
    price_outlier pm r =
      (ratio_lt r.UnitPrice ref (mkRat 3 10) || ratio_gt r.UnitPrice ref 3) := by
  unfold price_outlier
  rw [hlk]

/-- C6: a row is counted by the outlier mask exactly when its StockCode has
a reference price `ref` in the product master and the float ratio
UnitPrice/ref lies outside [0.3, 3.0] (for `ref = 0` the ratio is ±inf or
NaN, i.e. outlier iff UnitPrice ≠ 0); a row with no reference price is
never an outlier and is counted by the STOCKCODE_NOT_IN_PRODUCT_MASTER
mask instead, however extreme its UnitPrice. -/
theorem c6_outlier_scope (pm : List (String × ℚ)) (r : Row) :
    (pm_lookup pm r.StockCode = none →
      price_outlier pm r = false ∧ not_in_master pm r = true) ∧
    (price_outlier pm r = true ↔
      ∃ ref, pm_lookup pm r.StockCode = some ref ∧
        ((ref ≠ 0 ∧ (r.UnitPrice / ref < mkRat 3 10 ∨ 3 < r.UnitPrice / ref)) ∨
         (ref = 0 ∧ r.UnitPrice ≠ 0))) := by
  constructor
  · intro hnone
    exact ⟨price_outlier_none hnone,
      decide_eq_true ((lookup_none_iff pm r.StockCode).mp hnone)⟩
  · constructor
    · intro h
      cases hlk : pm_lookup pm r.StockCode with
      | none =>
        rw [price_outlier_none hlk] at h
        cases h
      | some ref =>
        rw [price_outlier_some hlk] at h
        unfold ratio_lt ratio_gt at h
        refine ⟨ref, rfl, ?_⟩
        by_cases h0 : ref = 0
        · rw [if_pos h0, if_pos h0] at h
          simp only [Bool.or_eq_true, decide_eq_true_eq] at h
          right
          refine ⟨h0, ?_⟩
          rcases h with h | h
          · exact ne_of_lt h
          · exact ne_of_gt h
        · rw [if_neg h0, if_neg h0] at h
          simp only [Bool.or_eq_true, decide_eq_true_eq] at h
          exact Or.inl ⟨h0, h⟩
    · rintro ⟨ref, href, hc⟩
      rw [price_outlier_some href]
      unfold ratio_lt ratio_gt
      rcases hc with ⟨h0, hor⟩ | ⟨h0, hne⟩
      · rw [if_neg h0, if_neg h0]
        rcases hor with h | h <;> simp [h]
      · rw [if_pos h0, if_pos h0]
        rcases lt_or_gt_of_ne hne with h | h <;> simp [h]

/-- C6 witness: the spec scenario — no product-master entry for StockCode
Z999, and the Z999 row with extreme UnitPrice 999 is excluded from the
outlier rule and counted by the mapping rule. -/
theorem c6_outlier_scope_witness :
    price_outlier pmOk rowZ = false ∧ not_in_master pmOk rowZ = true :=
  (c6_outlier_scope pmOk rowZ).1 (by decide)

/-- C3 (data level): on a table where no rule mask matches any row and
schema validation succeeds, the pipeline collects no issues, both the
sorted exception log and the combined sample table are empty, and the
score is 100.0 with grade A.  (The deployed code nevertheless crashes on
this very input: with zero issues, `pd.DataFrame([])` at line 224 has no
columns and `sort_values(["severity", "row_count"])` raises `KeyError`
before any output file is written.) -/
theorem c3_all_valid_run (df : List Row) (pm : List (String × ℚ))
    (h : ∀ r ∈ df,
      invalid_invoice_date r = false ∧ missing_customer_id r = false ∧
      empty_description r = false ∧ non_positive_quantity r = false ∧
      non_positive_unit_price r = false ∧ invalid_stockcode_format r = false ∧
      duplicate_line df r = false ∧ not_in_master pm r = false ∧
      price_outlier pm r = false) :
    pipeline_issues df (Except.ok df) pm = [] ∧
    sortIssues (pipeline_issues df (Except.ok df) pm) = [] ∧
    all_samples df pm = [] ∧
    compute_quality_score (pipeline_issues df (Except.ok df) pm) df.length =
      { score := 100, grade := "A", total_rows := df.length, issue_count := 0 } := by
  have hz : ∀ p : Row → Bool, (∀ r ∈ df, p r = false) → df.countP p = 0 :=
    fun p hp => List.countP_eq_zero.mpr (fun a ha => by simp [hp a ha])
  have z1 := hz _ (fun r hr => (h r hr).1)
  have z2 := hz _ (fun r hr => (h r hr).2.1)
  have z3 := hz _ (fun r hr => (h r hr).2.2.1)
  have z4 := hz _ (fun r hr => (h r hr).2.2.2.1)
  have z5 := hz _ (fun r hr => (h r hr).2.2.2.2.1)
  have z6 := hz _ (fun r hr => (h r hr).2.2.2.2.2.1)
  have z7 := hz _ (fun r hr => (h r hr).2.2.2.2.2.2.1)
  have z8 := hz _ (fun r hr => (h r hr).2.2.2.2.2.2.2.1)
  have z9 := hz _ (fun r hr => (h r hr).2.2.2.2.2.2.2.2)
  have hissues : pipeline_issues df (Except.ok df) pm = [] := by
    simp only [pipeline_issues, schema_step, collect_issues]
    rw [z1, z2, z3, z4, z5, z6, z7, z8, z9]
    simp [add_issue]
  have hsample : ∀ (p : Row → Bool) (t s : String),
      df.countP p = 0 → sample_rows df p t s = [] := by
    intro p t s hp
    unfold sample_rows
    have hlen : (df.filter p).length = 0 := by
      rw [← List.countP_eq_length_filter]
      exact hp
    simp [hlen]
  have hsamples : all_samples df pm = [] := by
    unfold all_samples
    rw [hsample _ _ _ z1, hsample _ _ _ z2, hsample _ _ _ z3, hsample _ _ _ z4,
      hsample _ _ _ z5, hsample _ _ _ z6, hsample _ _ _ z7, hsample _ _ _ z8,
      hsample _ _ _ z9]
    rfl
  have hscore : compute_quality_score [] df.length =
      { score := 100, grade := "A", total_rows := df.length, issue_count := 0 } := by
    have hpen0 : penaltyOf [] df.length = 0 := rfl
    have h100 : rnd1 (100 - penaltyOf [] df.length) = 100 := by
      rw [hpen0]
      unfold rnd1
      have hc : (10 : ℚ) * (100 - 0) = ((1000 : ℤ) : ℚ) := by norm_num
      rw [hc, rhe_int]
      norm_num
    have hmax : max (0 : ℚ) (rnd1 (100 - penaltyOf [] df.length)) = 100 := by
      rw [h100]
      norm_num
    simp only [compute_quality_score, hmax]
    norm_num
  refine ⟨hissues, by rw [hissues]; rfl, hsamples, by rw [hissues]; exact hscore⟩

/-- C3 witness: a one-row fully valid table against a matching product
master. -/
theorem c3_all_valid_run_witness :
    pipeline_issues [rowOk] (Except.ok [rowOk]) pmOk = [] ∧
    sortIssues (pipeline_issues [rowOk] (Except.ok [rowOk]) pmOk) = [] ∧
    all_samples [rowOk] pmOk = [] ∧
    compute_quality_score (pipeline_issues [rowOk] (Except.ok [rowOk]) pmOk)
        [rowOk].length =
      { score := 100, grade := "A", total_rows := [rowOk].length, issue_count := 0 } :=
  c3_all_valid_run [rowOk] pmOk (by
    intro r hr
    have hr0 : r = rowOk := by simpa using hr
    subst hr0
    refine ⟨by decide, by decide, by decide, by decide, by decide, by decide,
      by decide, by decide, ?_⟩
    simp [price_outlier, pm_lookup, pmOk, rowOk, List.lookup, ratio_lt, ratio_gt]
    decide)

/-- Multiplicity as a decidable-equality count. -/
theorem count_eq_countP_dec {K : Type} [DecidableEq K] (l : List K) (k : K) :
    l.count k = l.countP (fun x => decide (x = k)) := by
  rw [List.count]
  apply List.countP_congr
  intro x _
  by_cases h : x = k
  · subst h; simp
  · simp [h]

/-- Counting the elements whose multiplicity is at least 2 equals summing
the multiplicities of the distinct values of multiplicity at least 2. -/
theorem countP_dup_eq_sum {K : Type} [DecidableEq K] (l : List K) :
    l.countP (fun k => decide (2 ≤ l.countP (fun k2 => decide (k2 = k)))) =
      Finset.sum (l.toFinset.filter (fun k => 2 ≤ l.countP (fun x => decide (x = k))))
        (fun k => l.countP (fun x => decide (x = k))) := by
  have hc : ∀ k : K, l.countP (fun x => decide (x = k)) = l.count k :=
    fun k => (count_eq_countP_dec l k).symm
  simp only [hc]
  have hcard : l.countP (fun k => decide (2 ≤ l.count k)) =
      Multiset.card (Multiset.filter (fun k => 2 ≤ l.count k) (↑l : Multiset K)) := by
    rw [Multiset.filter_coe, Multiset.coe_card, List.countP_eq_length_filter]
  rw [hcard]
  rw [← Multiset.toFinset_sum_count_eq]
  rw [Multiset.toFinset_filter]
  have hts : (↑l : Multiset K).toFinset = l.toFinset := rfl
  rw [hts]
  apply Finset.sum_congr rfl
  intro k hk
  have hq : 2 ≤ l.count k := (Finset.mem_filter.mp hk).2
  rw [Multiset.count_filter]
  simp [hq, Multiset.coe_count]

/-- C5: the DUPLICATE_LINES count (rows marked by
`duplicated(keep=False)`) equals the total size of all groups of size ≥ 2
sharing the `(InvoiceNo, StockCode, InvoiceDate)` key — every member of
each duplicate group is counted, not only the members beyond the first. -/
theorem c5_duplicate_total (df : List Row) :
    df.countP (duplicate_line df) = specDupTotal df := by
  unfold specDupTotal keyMult
  have h1 : df.countP (duplicate_line df) =
      (df.map rowKey).countP
        (fun k => decide (2 ≤ (df.map rowKey).countP (fun k2 => decide (k2 = k)))) := by
    rw [List.countP_map]
    apply List.countP_congr
    intro r _
    unfold duplicate_line
    simp only [Function.comp_apply]
    rw [List.countP_map]
    exact Iff.rfl
  rw [h1, countP_dup_eq_sum]
